import Mathlib

/-!
Shallow embedding of `backup.py`, an incremental file-based backup script.

The script's core consists of four functions, all embedded here under their
source names:

* `parse_timeframe` — converts a duration string such as `"7d"` or `"4h"`
  into a `timedelta`;
* `create_backup` — walks the source tree and copies every file modified
  since the last backup time into the backup tree, embedding the run time
  in the copied file's name;
* `remove_old_backups` — lists the backup directory and deletes entries
  whose embedded timestamp has aged past the retention cutoff, subject to a
  second-stage sparing rule;
* `perform_backup` — the orchestrator: parses configuration, resolves the
  last-backup-time watermark, runs `create_backup`, and rewrites the
  configuration with a new watermark.

Python's `datetime` values are modelled as plain records of calendar
fields; comparison and subtraction go through a seconds-since-0001-01-01
count, which agrees with CPython's `datetime` ordering and `timedelta`
arithmetic on calendar-valid values (every `datetime` the script itself
constructs is calendar-valid).  `datetime.strptime` for the two formats the
script uses (`"%Y%m%d%H%M%S"` and `"%Y-%m-%d %H:%M:%S"`) is modelled after
CPython's `_strptime` regular expressions, including their
shorter-field-width alternatives and backtracking order; `int(...)` string
conversion is modelled with its sign, surrounding-whitespace and
underscore-separator tolerance.  The character alphabet is restricted to
ASCII (CPython additionally accepts non-ASCII digits and whitespace, which
never occur in this script's data).

Effects are made explicit: filesystem reads become function arguments
(the scanned source entries, the backup-directory listing), filesystem
writes become returned lists, the wall clock becomes explicit
`datetime.now()` reading arguments, and a raised-and-unhandled exception
becomes an `Option`/`Except` error component that aborts the enclosing
computation, exactly where the source lets the exception propagate.
Logging calls are not modelled.
-/

/-- Calendar fields of a CPython `datetime.datetime` (microseconds are never
used by the script and are omitted). -/
structure PyDateTime where
  year : Nat
  month : Nat
  day : Nat
  hour : Nat
  minute : Nat
  second : Nat
deriving DecidableEq, Repr

/-- Gregorian leap-year rule, as in CPython's `calendar.isleap`. -/
def isLeapYear (y : Nat) : Bool :=
  (y % 4 == 0 && y % 100 != 0) || y % 400 == 0

/-- Length of a month (month `m` of year `y`), as in `calendar.monthrange`. -/
def daysInMonth (y m : Nat) : Nat :=
  if m = 2 then (if isLeapYear y then 29 else 28)
  else if m = 4 ∨ m = 6 ∨ m = 9 ∨ m = 11 then 30
  else 31

/-- Days in year `y` strictly before month `m`. -/
def daysBeforeMonth (y m : Nat) : Nat :=
  (List.range (m - 1)).foldl (fun a i => a + daysInMonth y (i + 1)) 0

/-- Days from 0001-01-01 to the given date (the date's proleptic-Gregorian
ordinal minus one, as in `datetime.toordinal() - 1`). -/
def PyDateTime.rataDie (t : PyDateTime) : Nat :=
  365 * (t.year - 1) + (t.year - 1) / 4 - (t.year - 1) / 100 + (t.year - 1) / 400
    + daysBeforeMonth t.year t.month + (t.day - 1)

/-- Seconds from 0001-01-01 00:00:00 to the given instant.  On
calendar-valid values this count orders exactly like CPython `datetime`
comparison, and differences of these counts are CPython `timedelta` total
seconds. -/
def PyDateTime.toSeconds (t : PyDateTime) : Nat :=
  t.rataDie * 86400 + t.hour * 3600 + t.minute * 60 + t.second

/-- CPython's `datetime.min`, i.e. 0001-01-01 00:00:00. -/
def pyDatetimeMin : PyDateTime := ⟨1, 1, 1, 0, 0, 0⟩

/-- The ASCII digit character for `n < 10`. -/
def digitChar (n : Nat) : Char := Char.ofNat (48 + n)

/-- Zero-padded two-digit decimal rendering (for `n ≤ 99`), as `strftime`
produces for `%m`, `%d`, `%H`, `%M`, `%S`. -/
def pad2 (n : Nat) : String := String.mk [digitChar (n / 10 % 10), digitChar (n % 10)]

/-- Four-digit decimal rendering (exact for `1000 ≤ n ≤ 9999`; `datetime`
years are at most 9999), as `strftime` produces for `%Y`. -/
def pad4 (n : Nat) : String :=
  String.mk [digitChar (n / 1000 % 10), digitChar (n / 100 % 10),
             digitChar (n / 10 % 10), digitChar (n % 10)]

/-- `t.strftime("%Y%m%d%H%M%S")`, the timestamp embedded in backup file
names. -/
def strftimeCompact (t : PyDateTime) : String :=
  pad4 t.year ++ pad2 t.month ++ pad2 t.day ++ pad2 t.hour ++ pad2 t.minute ++ pad2 t.second

/-- `t.strftime("%Y-%m-%d %H:%M:%S")`, the format of the persisted
`last_backup_time` configuration value. -/
def strftimeDash (t : PyDateTime) : String :=
  pad4 t.year ++ "-" ++ pad2 t.month ++ "-" ++ pad2 t.day ++ " "
    ++ pad2 t.hour ++ ":" ++ pad2 t.minute ++ ":" ++ pad2 t.second

/-- Numeric value of an ASCII digit character. -/
def dval (c : Char) : Nat := c.toNat - 48

/-- Field parser for `%Y` in `_strptime`: exactly four digits
(`\d\d\d\d`). -/
def p4d : List Char → Option (Nat × List Char)
  | a :: b :: c :: d :: rest =>
    if a.isDigit ∧ b.isDigit ∧ c.isDigit ∧ d.isDigit then
      some (1000 * dval a + 100 * dval b + 10 * dval c + dval d, rest)
    else none
  | _ => none

/-- Two-digit alternatives of `%m` in `_strptime`: `1[0-2]|0[1-9]`. -/
def pMonth2 : List Char → Option (Nat × List Char)
  | a :: b :: rest =>
    if (a = '1' ∧ b.isDigit ∧ dval b ≤ 2) ∨ (a = '0' ∧ b.isDigit ∧ 1 ≤ dval b) then
      some (10 * dval a + dval b, rest)
    else none
  | _ => none

/-- One-digit alternative of `%m` (and `%d`) in `_strptime`: `[1-9]`. -/
def pDig19 : List Char → Option (Nat × List Char)
  | a :: rest => if a.isDigit ∧ 1 ≤ dval a then some (dval a, rest) else none
  | _ => none

/-- Two-digit alternatives of `%d` in `_strptime`: `3[01]|[12]\d|0[1-9]`. -/
def pDay2 : List Char → Option (Nat × List Char)
  | a :: b :: rest =>
    if (a = '3' ∧ b.isDigit ∧ dval b ≤ 1) ∨ ((a = '1' ∨ a = '2') ∧ b.isDigit)
        ∨ (a = '0' ∧ b.isDigit ∧ 1 ≤ dval b) then
      some (10 * dval a + dval b, rest)
    else none
  | _ => none

/-- Two-digit alternatives of `%H` in `_strptime`: `2[0-3]|[0-1]\d`. -/
def pHour2 : List Char → Option (Nat × List Char)
  | a :: b :: rest =>
    if (a = '2' ∧ b.isDigit ∧ dval b ≤ 3) ∨ ((a = '0' ∨ a = '1') ∧ b.isDigit) then
      some (10 * dval a + dval b, rest)
    else none
  | _ => none

/-- One-digit alternative of `%H`, `%M`, `%S` in `_strptime`: `\d`. -/
def pDig09 : List Char → Option (Nat × List Char)
  | a :: rest => if a.isDigit then some (dval a, rest) else none
  | _ => none

/-- Two-digit alternative of `%M` and `%S` in `_strptime`: `[0-5]\d`. -/
def pMS2 : List Char → Option (Nat × List Char)
  | a :: b :: rest =>
    if a.isDigit ∧ dval a ≤ 5 ∧ b.isDigit then some (10 * dval a + dval b, rest) else none
  | _ => none

/-- Ordered alternation with backtracking, mirroring how a regular
expression tries a two-digit field alternative before the one-digit one and
retries the shorter one when the rest of the pattern fails to match. -/
def tryTwo {R : Type} (p2 p1 : List Char → Option (Nat × List Char)) (cs : List Char)
    (k : Nat → List Char → Option R) : Option R :=
  match p2 cs with
  | some (v, rest) =>
    match k v rest with
    | some r => some r
    | none =>
      match p1 cs with
      | some (w, rest1) => k w rest1
      | none => none
  | none =>
    match p1 cs with
    | some (w, rest1) => k w rest1
    | none => none

/-- Literal character in a `_strptime` pattern. -/
def pLit (ch : Char) : List Char → Option (List Char)
  | c :: rest => if c = ch then some rest else none
  | _ => none

/-- ASCII whitespace, the characters `str.strip`/`int` and `\s` treat as
whitespace. -/
def isPyWhitespace (c : Char) : Bool :=
  decide (c = ' ' ∨ c = '\t' ∨ c = '\n' ∨ c = '\r' ∨ c = '\x0b' ∨ c = '\x0c')

/-- Whitespace run in a `_strptime` pattern: `_strptime` replaces a literal
whitespace character of the format with `\s+`. -/
def pSpace : List Char → Option (List Char)
  | c :: rest => if isPyWhitespace c then some (rest.dropWhile isPyWhitespace) else none
  | _ => none

/-- Post-match validation shared by both `strptime` models: the regular
expression must have consumed the whole string (CPython raises
`unconverted data remains` otherwise) and the matched fields must form a
constructible `datetime` (the regex already bounds month, hour, minute and
second; the constructor additionally requires `year ≥ 1` and a day that
exists in the month). -/
def finishStrptime : Option (PyDateTime × List Char) → Option PyDateTime
  | none => none
  | some (t, rest) =>
    if rest = [] ∧ 1 ≤ t.year ∧ t.day ≤ daysInMonth t.year t.month then some t else none

/-- `datetime.strptime(s, "%Y%m%d%H%M%S")` as used on the timestamp token of
a backup entry's name; `none` models the raised `ValueError`. -/
def strptimeCompact? (s : String) : Option PyDateTime :=
  finishStrptime <|
    match p4d s.toList with
    | none => none
    | some (y, r1) =>
      tryTwo pMonth2 pDig19 r1 fun m r2 =>
        tryTwo pDay2 pDig19 r2 fun d r3 =>
          tryTwo pHour2 pDig09 r3 fun h r4 =>
            tryTwo pMS2 pDig09 r4 fun mi r5 =>
              tryTwo pMS2 pDig09 r5 fun se r6 =>
                some (PyDateTime.mk y m d h mi se, r6)

/-- `datetime.strptime(s, "%Y-%m-%d %H:%M:%S")` as used on the persisted
`last_backup_time` value; `none` models the raised `ValueError`. -/
def strptimeDash? (s : String) : Option PyDateTime :=
  finishStrptime <|
    match p4d s.toList with
    | none => none
    | some (y, r1) =>
      match pLit '-' r1 with
      | none => none
      | some r1b =>
        tryTwo pMonth2 pDig19 r1b fun m r2 =>
          match pLit '-' r2 with
          | none => none
          | some r2b =>
            tryTwo pDay2 pDig19 r2b fun d r3 =>
              match pSpace r3 with
              | none => none
              | some r3b =>
                tryTwo pHour2 pDig09 r3b fun h r4 =>
                  match pLit ':' r4 with
                  | none => none
                  | some r4b =>
                    tryTwo pMS2 pDig09 r4b fun mi r5 =>
                      match pLit ':' r5 with
                      | none => none
                      | some r5b =>
                        tryTwo pMS2 pDig09 r5b fun se r6 =>
                          some (PyDateTime.mk y m d h mi se, r6)

/-- Strip ASCII whitespace from both ends, as `int(str)` does before
conversion. -/
def stripWs (cs : List Char) : List Char :=
  ((cs.dropWhile isPyWhitespace).reverse.dropWhile isPyWhitespace).reverse

/-- Decimal value of a digit list. -/
def digitsVal (cs : List Char) : Nat :=
  cs.foldl (fun a c => 10 * a + dval c) 0

/-- After an initial digit, the remaining characters acceptable to `int`:
digits, with single underscores allowed only between digits.  Returns the
digits with the underscores removed. -/
def digitsRest : List Char → Option (List Char)
  | [] => some []
  | c :: cs =>
    if c = '_' then
      match cs with
      | [] => none
      | c2 :: cs2 =>
        if c2.isDigit then (digitsRest cs2).map (fun ds => c2 :: ds) else none
    else if c.isDigit then (digitsRest cs).map (fun ds => c :: ds) else none

/-- The unsigned part of `int(str)` conversion: one or more digits with
optional single underscore separators. -/
def pyUnsigned? : List Char → Option Nat
  | [] => none
  | c :: cs =>
    if c.isDigit then (digitsRest cs).map (fun ds => digitsVal (c :: ds)) else none

/-- CPython `int(s)` on a string: optional surrounding whitespace, optional
single sign, then digits with optional underscore separators; `none` models
the raised `ValueError`. -/
def pyInt? (s : String) : Option Int :=
  match stripWs s.toList with
  | [] => none
  | c :: r =>
    if c = '+' then (pyUnsigned? r).map (fun n => (n : Int))
    else if c = '-' then (pyUnsigned? r).map (fun n => -(n : Int))
    else (pyUnsigned? (c :: r)).map (fun n => (n : Int))

/-- The two distinct `ValueError` situations of `parse_timeframe`: the
conversion `int(timeframe[:-1])` failing, and the explicit
`raise ValueError("Invalid time frame unit...")`. -/
inductive TFError where
  | invalidMagnitude
  | invalidUnit
deriving DecidableEq, Repr

/-- A CPython `timedelta`, represented by its total seconds. -/
structure Timedelta where
  seconds : Int
deriving DecidableEq, Repr

/-- `timedelta(hours=n)`. -/
def timedeltaHours (n : Int) : Timedelta := ⟨n * 3600⟩

/-- `timedelta(days=n)`. -/
def timedeltaDays (n : Int) : Timedelta := ⟨n * 86400⟩

/-- `parse_timeframe` from `backup.py`: `int(timeframe[:-1])` is evaluated
first (so a failing conversion raises before the unit is examined), then
the final character selects hours or days, anything else raising the
invalid-unit `ValueError`. -/
def parse_timeframe (timeframe : String) : Except TFError Timedelta :=
  match pyInt? (String.mk timeframe.toList.dropLast) with
  | none => Except.error TFError.invalidMagnitude
  | some duration =>
    if timeframe.toList.getLast? = some 'h' then Except.ok (timedeltaHours duration)
    else if timeframe.toList.getLast? = some 'd' then Except.ok (timedeltaDays duration)
    else Except.error TFError.invalidUnit

/-- The specification's duration-string pattern `^\d+[hd]$`, written from
the specification's words (not from the source) for comparison with
`parse_timeframe`. -/
def spec_durationPattern (s : String) : Bool :=
  !s.toList.dropLast.isEmpty && s.toList.dropLast.all Char.isDigit &&
    (s.toList.getLast? == some 'h' || s.toList.getLast? == some 'd')

/-- `os.path.join` on already-relative segments (the script runs on POSIX
paths; no segment the script joins is absolute or empty). -/
def joinPath : List String → String
  | [] => ""
  | [p] => p
  | p :: ps => p ++ "/" ++ joinPath ps

/-- Python `str.split(sep)` for a single-character separator: splits at
every occurrence, keeping empty pieces. -/
def splitChars (sep : Char) : List Char → List (List Char)
  | [] => [[]]
  | c :: cs =>
    if c = sep then [] :: splitChars sep cs
    else
      match splitChars sep cs with
      | [] => [[c]]
      | g :: gs => (c :: g) :: gs

/-- `backup.split("_")` from line 118 of the source. -/
def pySplitUnderscore (s : String) : List String :=
  (splitChars '_' s.toList).map String.mk

/-- Position of the last `.` in a file name, if any. -/
def lastDotIdx (cs : List Char) : Option Nat :=
  (cs.reverse.findIdx? (· == '.')).map (fun k => cs.length - 1 - k)

/-- `os.path.splitext` on a bare file name (no path separator): split at
the last dot, unless every character before that dot is itself a dot (so
`".bashrc"` has no extension), exactly as in CPython's `posixpath`. -/
def splitext (p : String) : String × String :=
  match lastDotIdx p.toList with
  | none => (p, "")
  | some i =>
    if (p.toList.take i).any (fun c => c != '.') then
      (String.mk (p.toList.take i), String.mk (p.toList.drop i))
    else (p, "")

/-- One regular file found by `os.walk(source_path)`: the directory chain
under the source root, the bare file name, the `os.path.getmtime`
modification time, and the file's bytes (carried so that dependence of the
copier on file contents can be stated; the script never reads them when
deciding). -/
structure SourceFile where
  relDir : List String
  name : String
  mtime : PyDateTime
  content : List Nat
deriving DecidableEq, Repr

/-- `file_path = os.path.join(root, file)` for a walked file, with
`root = os.path.join(source_path, *relDir)`. -/
def file_path (source_path : String) (f : SourceFile) : String :=
  joinPath (source_path :: (f.relDir ++ [f.name]))

/-- `rel_path = os.path.relpath(file_path, source_path)`: the file's path
under the source root, directories and file name included. -/
def rel_path (f : SourceFile) : String :=
  joinPath (f.relDir ++ [f.name])

/-- Lines 96-100 of the source: the backup destination
`os.path.join(backup_path, rel_path, new_file_name)` where
`new_file_name = f"{stem}_{current_time:%Y%m%d%H%M%S}{ext}"`. -/
def backup_file_path (backup_path : String) (current_time : PyDateTime) (f : SourceFile) : String :=
  joinPath [backup_path, rel_path f,
    (splitext f.name).1 ++ "_" ++ strftimeCompact current_time ++ (splitext f.name).2]

/-- `create_backup` from `backup.py`.  `current_time` is the single
`datetime.now()` reading taken at the top of the function; `copy_raises`
tells, for each source `file_path`, whether `shutil.copy2` raises for it
(permission denied, disk full, ...).  The result is the list of performed
copies (source entry paired with the created backup path, in walk order)
together with `some failing_path` when a copy raised: the function has no
exception handler, so a raised copy error aborts the walk at that file and
propagates to the caller, the earlier copies remaining on disk.  The
`backup_retention_time` and `second_stage_backup_interval` parameters are
received and ignored, as in the source. -/
def create_backup (source_path backup_path : String) (last_backup_time : PyDateTime)
    (backup_retention_time second_stage_backup_interval : Timedelta)
    (current_time : PyDateTime) (copy_raises : String → Bool) :
    List SourceFile → List (SourceFile × String) × Option String
  | [] => ([], none)
  | f :: rest =>
    if f.mtime.toSeconds > last_backup_time.toSeconds ∨ last_backup_time = pyDatetimeMin then
      if copy_raises (file_path source_path f) then
        ([], some (file_path source_path f))
      else
        let r := create_backup source_path backup_path last_backup_time
          backup_retention_time second_stage_backup_interval current_time copy_raises rest
        ((f, backup_file_path backup_path current_time f) :: r.1, r.2)
    else
      create_backup source_path backup_path last_backup_time
        backup_retention_time second_stage_backup_interval current_time copy_raises rest

/-- The two uncaught exceptions a backup-directory entry can raise inside
`remove_old_backups`: `backup.split("_")[1]` raising `IndexError` when the
name contains no underscore, and `datetime.strptime` raising `ValueError`
when the extracted token is not a `YYYYMMDDHHMMSS` timestamp. -/
inductive PruneError where
  | indexError (name : String)
  | valueError (token : String)
deriving DecidableEq, Repr

/-- Lines 118-119 of the source:
`backup_time_str = backup.split("_")[1]` followed by
`backup_time = datetime.strptime(backup_time_str, "%Y%m%d%H%M%S")`. -/
def extractTs (backup : String) : Except PruneError PyDateTime :=
  match (pySplitUnderscore backup).get? 1 with
  | none => Except.error (PruneError.indexError backup)
  | some tok =>
    match strptimeCompact? tok with
    | none => Except.error (PruneError.valueError tok)
    | some t => Except.ok t

/-- `remove_old_backups` from `backup.py`.  `backups` is the
`os.listdir(backup_path)` listing; `now` is the `datetime.now()` reading
used for the age computation inside the loop;
`second_stage_backup_interval` is the integer number of days the loop's
`> 0` comparison and `%` arithmetic require it to be.  The result is the
list of removed entry names together with `some error` when an entry's
timestamp extraction raised: the loop has no exception handler, so the
first unparseable name aborts the loop, the later entries staying
unexamined.  An entry is removed when its embedded timestamp is older than
`oldest_allowed_backup_time`, unless the second-stage rule spares it:
a positive interval spares candidates whose age in whole days is a
multiple of the interval (`continue`). -/
def remove_old_backups (backup_path : String) (oldest_allowed_backup_time : PyDateTime)
    (second_stage_backup_interval : Int) (now : PyDateTime) :
    List String → List String × Option PruneError
  | [] => ([], none)
  | b :: rest =>
    match extractTs b with
    | Except.error e => ([], some e)
    | Except.ok backup_time =>
      if backup_time.toSeconds < oldest_allowed_backup_time.toSeconds then
        if 0 < second_stage_backup_interval ∧
            Int.emod (Int.fdiv ((now.toSeconds : Int) - (backup_time.toSeconds : Int)) 86400)
              second_stage_backup_interval = 0 then
          remove_old_backups backup_path oldest_allowed_backup_time
            second_stage_backup_interval now rest
        else
          let r := remove_old_backups backup_path oldest_allowed_backup_time
            second_stage_backup_interval now rest
          (b :: r.1, r.2)
      else
        remove_old_backups backup_path oldest_allowed_backup_time
          second_stage_backup_interval now rest

/-- The `backup.conf` contents the script reads and rewrites. -/
structure Config where
  source_path : String
  backup_path : String
  backup_retention_time : String
  second_stage_backup_interval : String
  last_backup_time : Option String
deriving DecidableEq, Repr

/-- The filesystem state `perform_backup` touches: the walked source tree,
the backup files created so far (full paths), the
`os.listdir(backup_path)` view of the backup directory's immediate
entries, and whether the backup directory exists. -/
structure World where
  files : List SourceFile
  destFiles : List String
  backupNames : List String
  backupPathExists : Bool
deriving DecidableEq, Repr

/-- The immediate backup-directory entry a copied file appears under: the
first component of its `rel_path`. -/
def immediateName (f : SourceFile) : String :=
  match f.relDir with
  | [] => f.name
  | d :: _ => d

/-- Append a directory entry unless already listed. -/
def addUnique (l : List String) (x : String) : List String :=
  if x ∈ l then l else l ++ [x]

/-- The unrecoverable errors of a `perform_backup` run: a `ValueError` from
`parse_timeframe` on either timeframe setting, a `ValueError` from
`strptime` on a present but malformed `last_backup_time` (the
`except configparser.NoOptionError` clause does not catch it), and an
uncaught copy error propagating out of `create_backup`. -/
inductive RunError where
  | timeframeError (e : TFError)
  | watermarkError (value : String)
  | copyError (path : String)
deriving DecidableEq, Repr

/-- `perform_backup` from `backup.py`.  `t_copy` and `t_persist` are the
two successive `datetime.now()` readings the run takes: the one at the top
of `create_backup` (line 84) and the one taken while rewriting the
configuration (line 173).  The function parses the two timeframe settings,
ensures the backup directory exists, resolves the watermark (absent
`last_backup_time` means `datetime.min`), runs `create_backup`, and — only
when no exception aborted the run — rewrites the configuration with
`last_backup_time` set to the fresh `t_persist` reading.  It never invokes
`remove_old_backups`.  The returned `World` carries the filesystem effects
(also the partial copies of an aborted run); the `Except` carries the
rewritten configuration or the propagated error. -/
def perform_backup (config : Config) (w : World) (t_copy t_persist : PyDateTime)
    (copy_raises : String → Bool) : World × Except RunError Config :=
  match parse_timeframe config.backup_retention_time with
  | Except.error e => (w, Except.error (RunError.timeframeError e))
  | Except.ok backup_retention_time =>
    match parse_timeframe config.second_stage_backup_interval with
    | Except.error e => (w, Except.error (RunError.timeframeError e))
    | Except.ok second_stage_backup_interval =>
      let w1 := { w with backupPathExists := true }
      match (match config.last_backup_time with
             | none => Except.ok pyDatetimeMin
             | some s =>
               match strptimeDash? s with
               | none => Except.error s
               | some t => Except.ok t : Except String PyDateTime) with
      | Except.error s => (w1, Except.error (RunError.watermarkError s))
      | Except.ok last_backup_time =>
        let res := create_backup config.source_path config.backup_path last_backup_time
          backup_retention_time second_stage_backup_interval t_copy copy_raises w1.files
        let w2 := { w1 with
          destFiles := w1.destFiles ++ res.1.map Prod.snd,
          backupNames := res.1.foldl (fun acc p => addUnique acc (immediateName p.1)) w1.backupNames }
        match res.2 with
        | some p => (w2, Except.error (RunError.copyError p))
        | none =>
          (w2, Except.ok { config with last_backup_time := some (strftimeDash t_persist) })

/-- Whether the timestamp extraction of lines 118-119 succeeds on an entry
name. -/
def extractOkB (b : String) : Bool :=
  match extractTs b with
  | Except.ok _ => true
  | Except.error _ => false

/-- The removal decision the loop body of `remove_old_backups` applies to
one parseable entry: the embedded timestamp must be older than the cutoff,
and a positive second-stage interval must not spare it (age in whole days
a multiple of the interval). -/
def prunePredB (oldest : PyDateTime) (ssi : Int) (now : PyDateTime) (b : String) : Bool :=
  match extractTs b with
  | Except.error _ => false
  | Except.ok t =>
    decide (t.toSeconds < oldest.toSeconds) &&
      !(decide (0 < ssi) &&
        decide (Int.emod (Int.fdiv ((now.toSeconds : Int) - (t.toSeconds : Int)) 86400) ssi = 0))

/-- The error raised by the first entry whose timestamp extraction fails,
if any. -/
def firstPruneErr : List String → Option PruneError
  | [] => none
  | b :: rest =>
    match extractTs b with
    | Except.error e => some e
    | Except.ok _ => firstPruneErr rest

/-- The copy-decision-relevant part of a source entry: everything except
the file's contents. -/
def SourceFile.shape (f : SourceFile) : List String × String × PyDateTime :=
  (f.relDir, f.name, f.mtime)

lemma takeWhile_cons_pos {α : Type} (p : α → Bool) (a : α) (l : List α) (h : p a = true) :
    (a :: l).takeWhile p = a :: l.takeWhile p := by
  simp [List.takeWhile, h]

lemma takeWhile_cons_neg {α : Type} (p : α → Bool) (a : α) (l : List α) (h : p a = false) :
    (a :: l).takeWhile p = [] := by
  simp [List.takeWhile, h]

lemma takeWhile_eq_self_of_all {α : Type} (p : α → Bool) :
    ∀ l : List α, (∀ a ∈ l, p a = true) → l.takeWhile p = l
  | [], _ => rfl
  | a :: l, h => by
    rw [takeWhile_cons_pos p a l (h a (List.mem_cons_self a l)),
      takeWhile_eq_self_of_all p l (fun b hb => h b (List.mem_cons_of_mem a hb))]

lemma dropWhile_eq_self_of_none {α : Type} (p : α → Bool) :
    ∀ l : List α, (∀ a ∈ l, p a = false) → l.dropWhile p = l
  | [], _ => rfl
  | a :: l, h => by
    simp [List.dropWhile, h a (List.mem_cons_self a l)]

/-- The loop of `remove_old_backups` in closed form: it examines the
longest prefix of parseable entries, removes those the loop body's
decision selects, and stops with the first extraction error, if any. -/
lemma remove_old_backups_eq (bp : String) (oldest : PyDateTime) (ssi : Int) (now : PyDateTime) :
    ∀ backups : List String,
      remove_old_backups bp oldest ssi now backups
        = ((backups.takeWhile extractOkB).filter (prunePredB oldest ssi now),
            firstPruneErr backups)
  | [] => rfl
  | b :: rest => by
    have ih := remove_old_backups_eq bp oldest ssi now rest
    cases hb : extractTs b with
    | error e =>
      have hok : extractOkB b = false := by simp [extractOkB, hb]
      rw [takeWhile_cons_neg _ _ _ hok]
      simp [remove_old_backups, hb, firstPruneErr]
    | ok t =>
      have hok : extractOkB b = true := by simp [extractOkB, hb]
      have hpred : prunePredB oldest ssi now b
          = (decide (t.toSeconds < oldest.toSeconds) &&
              !(decide (0 < ssi) &&
                decide (Int.emod (Int.fdiv ((now.toSeconds : Int) - (t.toSeconds : Int)) 86400)
                  ssi = 0))) := by
        simp [prunePredB, hb]
      rw [takeWhile_cons_pos _ _ _ hok]
      by_cases hcand : t.toSeconds < oldest.toSeconds
      · by_cases hspare : 0 < ssi ∧
            Int.emod (Int.fdiv ((now.toSeconds : Int) - (t.toSeconds : Int)) 86400) ssi = 0
        · have : prunePredB oldest ssi now b = false := by
            rw [hpred]; simp [hcand, hspare.1, hspare.2]
          simp [remove_old_backups, hb, hcand, hspare, firstPruneErr, ih,
            List.filter_cons, this]
        · have : prunePredB oldest ssi now b = true := by
            rw [hpred]
            simp only [Bool.and_eq_true, decide_eq_true_eq, Bool.not_eq_true']
            refine ⟨by simpa using hcand, ?_⟩
            by_cases h1 : 0 < ssi
            · have h2 : ¬ Int.emod (Int.fdiv ((now.toSeconds : Int) - (t.toSeconds : Int)) 86400)
                  ssi = 0 := fun h2 => hspare ⟨h1, h2⟩
              simp [h1, h2]
            · simp [h1]
          simp [remove_old_backups, hb, hcand, hspare, firstPruneErr, ih,
            List.filter_cons, this]
      · have : prunePredB oldest ssi now b = false := by
          rw [hpred]; simp [hcand]
        simp [remove_old_backups, hb, hcand, firstPruneErr, ih, List.filter_cons, this]

lemma firstPruneErr_eq_none_of_all :
    ∀ l : List String, (∀ b ∈ l, extractOkB b = true) → firstPruneErr l = none
  | [], _ => rfl
  | b :: l, h => by
    have hb := h b (List.mem_cons_self b l)
    cases he : extractTs b with
    | error e => simp [extractOkB, he] at hb
    | ok t =>
      simp only [firstPruneErr, he]
      exact firstPruneErr_eq_none_of_all l (fun c hc => h c (List.mem_cons_of_mem b hc))

lemma takeWhile_append_stop {α : Type} (p : α → Bool) (bad : α) (post : List α)
    (hbad : p bad = false) :
    ∀ pre : List α, (∀ a ∈ pre, p a = true) →
      (pre ++ bad :: post).takeWhile p = pre
  | [], _ => takeWhile_cons_neg p bad post hbad
  | a :: pre, h => by
    rw [List.cons_append, takeWhile_cons_pos p a _ (h a (List.mem_cons_self a pre)),
      takeWhile_append_stop p bad post hbad pre (fun b hb => h b (List.mem_cons_of_mem a hb))]

lemma firstPruneErr_append_stop (bad : String) (post : List String) (e : PruneError)
    (hbad : extractTs bad = Except.error e) :
    ∀ pre : List String, (∀ b ∈ pre, extractOkB b = true) →
      firstPruneErr (pre ++ bad :: post) = some e
  | [], _ => by simp [firstPruneErr, hbad]
  | b :: pre, h => by
    have hb := h b (List.mem_cons_self b pre)
    cases he : extractTs b with
    | error e2 => simp [extractOkB, he] at hb
    | ok t =>
      rw [List.cons_append]
      simp only [firstPruneErr, he]
      exact firstPruneErr_append_stop bad post e hbad pre
        (fun c hc => h c (List.mem_cons_of_mem b hc))

lemma isPyWhitespace_eq_false_of_digit (c : Char) (h : c.isDigit = true) :
    isPyWhitespace c = false := by
  simp only [isPyWhitespace, decide_eq_false_iff_not]
  rintro (rfl | rfl | rfl | rfl | rfl | rfl) <;> exact absurd h (by decide)

lemma stripWs_eq_self (cs : List Char) (h : ∀ c ∈ cs, isPyWhitespace c = false) :
    stripWs cs = cs := by
  unfold stripWs
  rw [dropWhile_eq_self_of_none _ cs h,
    dropWhile_eq_self_of_none _ cs.reverse (fun c hc => h c (List.mem_reverse.mp hc)),
    List.reverse_reverse]

lemma digitsRest_eq_of_digits :
    ∀ cs : List Char, (∀ c ∈ cs, c.isDigit = true) → digitsRest cs = some cs
  | [], _ => rfl
  | c :: cs, h => by
    have hc := h c (List.mem_cons_self c cs)
    have hne : ¬(c = '_') := by rintro rfl; exact absurd hc (by decide)
    rw [digitsRest.eq_def]
    dsimp only
    rw [if_neg hne, if_pos hc,
      digitsRest_eq_of_digits cs (fun d hd => h d (List.mem_cons_of_mem c hd))]
    rfl

lemma pyInt?_of_digits (cs : List Char) (hne : cs ≠ []) (h : ∀ c ∈ cs, c.isDigit = true) :
    pyInt? (String.mk cs) = some (Int.ofNat (digitsVal cs)) := by
  obtain ⟨c, cs2, rfl⟩ := List.exists_cons_of_ne_nil hne
  have hlist : (String.mk (c :: cs2)).toList = c :: cs2 := rfl
  have hc := h c (List.mem_cons_self c cs2)
  have hplus : ¬(c = '+') := by rintro rfl; exact absurd hc (by decide)
  have hminus : ¬(c = '-') := by rintro rfl; exact absurd hc (by decide)
  unfold pyInt?
  rw [hlist, stripWs_eq_self _ (fun d hd => isPyWhitespace_eq_false_of_digit d (h d hd))]
  simp only [if_neg hplus, if_neg hminus, pyUnsigned?, hc, if_pos]
  rw [digitsRest_eq_of_digits cs2 (fun d hd => h d (List.mem_cons_of_mem c hd))]
  rfl

lemma create_backup_mem_snd (sp bp : String) (lbt : PyDateTime) (brt ssi : Timedelta)
    (ct : PyDateTime) (orc : String → Bool) :
    ∀ (files : List SourceFile) (pr : SourceFile × String),
      pr ∈ (create_backup sp bp lbt brt ssi ct orc files).1 →
      pr.2 = backup_file_path bp ct pr.1
  | [], pr, hmem => by simp [create_backup] at hmem
  | f :: rest, pr, hmem => by
    by_cases hd : f.mtime.toSeconds > lbt.toSeconds ∨ lbt = pyDatetimeMin
    · by_cases hr : orc (file_path sp f) = true
      · simp [create_backup, hd, hr] at hmem
      · simp only [create_backup, if_pos hd, if_neg hr, List.mem_cons] at hmem
        cases hmem with
        | inl he => rw [he]
        | inr hm => exact create_backup_mem_snd sp bp lbt brt ssi ct orc rest pr hm
    · simp only [create_backup, if_neg hd] at hmem
      exact create_backup_mem_snd sp bp lbt brt ssi ct orc rest pr hmem

lemma foldl_addUnique_app (ps : List (SourceFile × String)) :
    ∀ acc : List String,
      ∃ tl, ps.foldl (fun a p => addUnique a (immediateName p.1)) acc = acc ++ tl := by
  induction ps with
  | nil => exact fun acc => ⟨[], by simp⟩
  | cons p ps ih =>
    intro acc
    simp only [List.foldl_cons]
    by_cases h : immediateName p.1 ∈ acc
    · have : addUnique acc (immediateName p.1) = acc := by simp [addUnique, h]
      rw [this]
      exact ih acc
    · have : addUnique acc (immediateName p.1) = acc ++ [immediateName p.1] := by
        simp [addUnique, h]
      rw [this]
      obtain ⟨tl, htl⟩ := ih (acc ++ [immediateName p.1])
      exact ⟨[immediateName p.1] ++ tl, by rw [htl, List.append_assoc]⟩

/-- Claim C4, counterexample.  The claim says the pruner takes the
SECOND-TO-LAST underscore-delimited segment as the timestamp token, that an
entry without a parseable timestamp is never deleted under any policy, and
that such a failure does not propagate past the pruning loop.  On the
listing `["a_19000101000000", "nounderscore", "b_19000101000000"]` (cutoff
2023-12-26 12:00:00, interval 0, now 2024-01-02 12:00:00) the code deletes
`"a_19000101000000"` even though its second-to-last segment `"a"` parses as
no timestamp (the code in fact reads the segment at index 1,
`"19000101000000"`), and the `IndexError` raised on `"nounderscore"`
escapes the loop, so the expired entry `"b_19000101000000"` that the claim
would have removed is never examined. -/
theorem c4_counterexample :
    remove_old_backups "backup_path" ⟨2023, 12, 26, 12, 0, 0⟩ 0 ⟨2024, 1, 2, 12, 0, 0⟩
        ["a_19000101000000", "nounderscore", "b_19000101000000"]
      = (["a_19000101000000"], some (PruneError.indexError "nounderscore"))
    ∧ pySplitUnderscore "a_19000101000000" = ["a", "19000101000000"]
    ∧ strptimeCompact? "a" = none
    ∧ strptimeCompact? "19000101000000" = some ⟨1900, 1, 1, 0, 0, 0⟩ := by
  refine ⟨by decide, by decide, by decide, by decide⟩

/-- Claim C4, amended: the pruner extracts the run timestamp as the
underscore-delimited segment at index 1 of the entry's name; an entry whose
name does not yield a parseable `YYYYMMDDHHMMSS` timestamp there is itself
never deleted, but the failure raises an uncaught exception that aborts the
pruning loop, so the remaining entries are not processed.  Formally: for a
listing consisting of parseable entries `pre`, an unparseable entry `bad`
and arbitrary entries `post`, the removed entries are exactly the loop
decision's selection from `pre`, the run ends with an error, and every
removed entry had a parseable timestamp. -/
theorem c4_amended_unparseable_aborts (bp : String) (oldest : PyDateTime) (ssi : Int)
    (now : PyDateTime) (pre : List String) (bad : String) (post : List String)
    (hpre : ∀ b ∈ pre, extractOkB b = true) (hbad : extractOkB bad = false) :
    (remove_old_backups bp oldest ssi now (pre ++ bad :: post)).1
        = pre.filter (prunePredB oldest ssi now)
    ∧ (∃ e, (remove_old_backups bp oldest ssi now (pre ++ bad :: post)).2 = some e)
    ∧ ∀ b ∈ (remove_old_backups bp oldest ssi now (pre ++ bad :: post)).1,
        extractOkB b = true := by
  have hex : ∃ e, extractTs bad = Except.error e := by
    cases h : extractTs bad with
    | error e => exact ⟨e, rfl⟩
    | ok t => simp [extractOkB, h] at hbad
  obtain ⟨e, he⟩ := hex
  rw [remove_old_backups_eq, takeWhile_append_stop _ bad post hbad pre hpre,
    firstPruneErr_append_stop bad post e he pre hpre]
  refine ⟨rfl, ⟨e, rfl⟩, ?_⟩
  intro b hb
  have hp := List.of_mem_filter hb
  cases hx : extractTs b with
  | ok t => simp [extractOkB, hx]
  | error e2 => simp [prunePredB, hx] at hp

/-- Witness for `c4_amended_unparseable_aborts` at the concrete listing of
the counterexample. -/
theorem c4_amended_witness :
    (remove_old_backups "backup_path" ⟨2023, 12, 26, 12, 0, 0⟩ 0 ⟨2024, 1, 2, 12, 0, 0⟩
          (["a_19000101000000"] ++ "nounderscore" :: ["b_19000101000000"])).1
        = ["a_19000101000000"].filter
            (prunePredB ⟨2023, 12, 26, 12, 0, 0⟩ 0 ⟨2024, 1, 2, 12, 0, 0⟩)
    ∧ (∃ e, (remove_old_backups "backup_path" ⟨2023, 12, 26, 12, 0, 0⟩ 0
          ⟨2024, 1, 2, 12, 0, 0⟩
          (["a_19000101000000"] ++ "nounderscore" :: ["b_19000101000000"])).2 = some e)
    ∧ ∀ b ∈ (remove_old_backups "backup_path" ⟨2023, 12, 26, 12, 0, 0⟩ 0
          ⟨2024, 1, 2, 12, 0, 0⟩
          (["a_19000101000000"] ++ "nounderscore" :: ["b_19000101000000"])).1,
        extractOkB b = true :=
  c4_amended_unparseable_aborts "backup_path" ⟨2023, 12, 26, 12, 0, 0⟩ 0
    ⟨2024, 1, 2, 12, 0, 0⟩ ["a_19000101000000"] "nounderscore" ["b_19000101000000"]
    (by decide) (by decide)

/-- Claim C5: on a listing whose entries all carry parseable timestamps,
the pruner removes exactly the candidates (embedded timestamp older than
the cutoff) that the second-stage rule does not spare: with a positive
interval, a candidate whose age in whole days (floor of the difference to
`now`) is a multiple of the interval is spared, every other candidate is
removed; with interval 0 every candidate is removed unconditionally. -/
theorem c5_second_stage_sparing (bp : String) (oldest : PyDateTime) (ssi : Int)
    (now : PyDateTime) (backups : List String)
    (hall : ∀ b ∈ backups, extractOkB b = true) :
    remove_old_backups bp oldest ssi now backups
        = (backups.filter (fun b =>
            match extractTs b with
            | Except.error _ => false
            | Except.ok t =>
              decide (t.toSeconds < oldest.toSeconds) &&
                !(decide (0 < ssi) &&
                  decide (Int.emod
                    (Int.fdiv ((now.toSeconds : Int) - (t.toSeconds : Int)) 86400) ssi = 0))),
            none)
    ∧ remove_old_backups bp oldest 0 now backups
        = (backups.filter (fun b =>
            match extractTs b with
            | Except.error _ => false
            | Except.ok t => decide (t.toSeconds < oldest.toSeconds)), none) := by
  constructor
  · rw [remove_old_backups_eq, takeWhile_eq_self_of_all _ _ hall,
      firstPruneErr_eq_none_of_all _ hall]
    have hfun : prunePredB oldest ssi now = (fun b =>
        match extractTs b with
        | Except.error _ => false
        | Except.ok t =>
          decide (t.toSeconds < oldest.toSeconds) &&
            !(decide (0 < ssi) &&
              decide (Int.emod
                (Int.fdiv ((now.toSeconds : Int) - (t.toSeconds : Int)) 86400) ssi = 0))) := by
      funext b
      unfold prunePredB
      cases extractTs b with
      | error e => rfl
      | ok t => rfl
    rw [hfun]
  · rw [remove_old_backups_eq, takeWhile_eq_self_of_all _ _ hall,
      firstPruneErr_eq_none_of_all _ hall]
    have hfun : prunePredB oldest 0 now = (fun b =>
        match extractTs b with
        | Except.error _ => false
        | Except.ok t => decide (t.toSeconds < oldest.toSeconds)) := by
      funext b
      unfold prunePredB
      cases extractTs b with
      | error e => rfl
      | ok t =>
        have h0 : (decide ((0 : Int) < 0)) = false := by decide
        simp only [h0, Bool.false_and, Bool.not_false, Bool.and_true]
    rw [hfun]

/-- Witness for `c5_second_stage_sparing`: cutoff 2024-01-03 00:00:00,
interval 3 days, now 2024-01-10 00:00:00.  The entries are 9, 8 and 12
days old; the 9- and 12-day-old candidates are spared (multiples of 3),
the 8-day-old one is removed. -/
theorem c5_second_stage_sparing_witness :
    (∀ b ∈ ["a_20240101000000", "b_20240102000000", "c_20231229000000"], extractOkB b = true)
    ∧ remove_old_backups "backup_path" ⟨2024, 1, 3, 0, 0, 0⟩ 3 ⟨2024, 1, 10, 0, 0, 0⟩
        ["a_20240101000000", "b_20240102000000", "c_20231229000000"]
      = (["b_20240102000000"], none) :=
  ⟨by decide, by
    rw [(c5_second_stage_sparing "backup_path" ⟨2024, 1, 3, 0, 0, 0⟩ 3 ⟨2024, 1, 10, 0, 0, 0⟩
      ["a_20240101000000", "b_20240102000000", "c_20231229000000"] (by decide)).1]
    decide⟩

/-- Claim C6: the pruner never removes an entry whose parseable embedded
timestamp is at least the cutoff `oldest_allowed_backup_time`; every
removed entry had a parseable timestamp, and that timestamp is strictly
older than the cutoff — for every policy and every listing, including runs
aborted by an unparseable entry. -/
theorem c6_only_expired_removed (bp : String) (oldest : PyDateTime) (ssi : Int)
    (now : PyDateTime) (backups : List String) :
    (∀ b ∈ (remove_old_backups bp oldest ssi now backups).1, extractOkB b = true)
    ∧ ∀ b t, b ∈ (remove_old_backups bp oldest ssi now backups).1 →
        extractTs b = Except.ok t → t.toSeconds < oldest.toSeconds := by
  rw [remove_old_backups_eq]
  constructor
  · intro b hb
    have hp := List.of_mem_filter hb
    cases hx : extractTs b with
    | ok t => simp [extractOkB, hx]
    | error e => simp [prunePredB, hx] at hp
  · intro b t hb ht
    have hp := List.of_mem_filter hb
    simp only [prunePredB, ht, Bool.and_eq_true, decide_eq_true_eq] at hp
    exact hp.1

/-- Witness for `c6_only_expired_removed`: a 1900 entry removed under a
2024 cutoff indeed has a parseable timestamp older than the cutoff. -/
theorem c6_only_expired_removed_witness :
    ("x_19000101000000" ∈ (remove_old_backups "backup_path" ⟨2024, 1, 2, 12, 0, 0⟩ 0
        ⟨2024, 1, 2, 12, 0, 0⟩ ["x_19000101000000"]).1)
    ∧ (⟨1900, 1, 1, 0, 0, 0⟩ : PyDateTime).toSeconds
        < (⟨2024, 1, 2, 12, 0, 0⟩ : PyDateTime).toSeconds :=
  ⟨by decide,
    (c6_only_expired_removed "backup_path" ⟨2024, 1, 2, 12, 0, 0⟩ 0 ⟨2024, 1, 2, 12, 0, 0⟩
      ["x_19000101000000"]).2 "x_19000101000000" ⟨1900, 1, 1, 0, 0, 0⟩ (by decide) (by rfl)⟩

/-- Claim C3: in a run without copy failures, the copier copies exactly
the entries whose modification time is strictly newer than the watermark
or for which the watermark is `datetime.min`; in particular, with the
first-run watermark `datetime.min` every scanned file is copied regardless
of its modification time. -/
theorem c3_copy_decision (sp bp : String) (lbt : PyDateTime) (brt ssi : Timedelta)
    (ct : PyDateTime) (files : List SourceFile) :
    create_backup sp bp lbt brt ssi ct (fun _ => false) files
        = ((files.filter (fun f =>
              decide (f.mtime.toSeconds > lbt.toSeconds) || decide (lbt = pyDatetimeMin))).map
            (fun f => (f, backup_file_path bp ct f)), none)
    ∧ create_backup sp bp pyDatetimeMin brt ssi ct (fun _ => false) files
        = (files.map (fun f => (f, backup_file_path bp ct f)), none) := by
  have main : ∀ (lbt2 : PyDateTime) (fs : List SourceFile),
      create_backup sp bp lbt2 brt ssi ct (fun _ => false) fs
        = ((fs.filter (fun f =>
              decide (f.mtime.toSeconds > lbt2.toSeconds) || decide (lbt2 = pyDatetimeMin))).map
            (fun f => (f, backup_file_path bp ct f)), none) := by
    intro lbt2 fs
    induction fs with
    | nil => rfl
    | cons f rest ih =>
      by_cases hd : f.mtime.toSeconds > lbt2.toSeconds ∨ lbt2 = pyDatetimeMin
      · have hb : (decide (f.mtime.toSeconds > lbt2.toSeconds)
            || decide (lbt2 = pyDatetimeMin)) = true := by
          simpa [Bool.or_eq_true, decide_eq_true_eq] using hd
        simp [create_backup, hd, List.filter_cons, hb, ih]
      · have hb : (decide (f.mtime.toSeconds > lbt2.toSeconds)
            || decide (lbt2 = pyDatetimeMin)) = false := by
          simpa [Bool.or_eq_true, decide_eq_true_eq] using hd
        simp [create_backup, hd, List.filter_cons, hb, ih]
  refine ⟨main lbt files, ?_⟩
  rw [main pyDatetimeMin files]
  have hall : (fun f : SourceFile =>
      decide (f.mtime.toSeconds > pyDatetimeMin.toSeconds) || decide (pyDatetimeMin = pyDatetimeMin))
      = fun _ : SourceFile => true := by
    funext f; simp
  rw [hall]
  simp [List.filter_true]

/-- Claim C2, counterexample.  The claim says the copier writes
`destination_root/<directory part of relative path>/<stem>_<ts><ext>` and
that for `a.txt` at the source root with run time 2024-01-02 12:00:00 the
single artifact is `backup_path/a_20240102120000.txt`.  The code joins the
FULL relative path (file name included) as a directory component: the
single artifact is `backup_path/a.txt/a_20240102120000.txt`. -/
theorem c2_counterexample :
    create_backup "source_path" "backup_path" pyDatetimeMin ⟨604800⟩ ⟨0⟩
        ⟨2024, 1, 2, 12, 0, 0⟩ (fun _ => false)
        [⟨[], "a.txt", ⟨2024, 1, 1, 0, 0, 0⟩, []⟩]
      = ([(⟨[], "a.txt", ⟨2024, 1, 1, 0, 0, 0⟩, []⟩,
            "backup_path/a.txt/a_20240102120000.txt")], none)
    ∧ "backup_path/a.txt/a_20240102120000.txt" ≠ "backup_path/a_20240102120000.txt" :=
  ⟨by decide, by decide⟩

/-- Claim C2, amended: the destination path of every copied file is
`backup_path` joined with the file's FULL relative path (directories and
file name) joined with `<stem>_<run time as YYYYMMDDHHMMSS><ext>`; for
`a.txt` at the source root the artifact is
`backup_path/a.txt/a_20240102120000.txt`. -/
theorem c2_amended_layout (sp bp : String) (brt ssi : Timedelta) (ct : PyDateTime)
    (files : List SourceFile) :
    create_backup sp bp pyDatetimeMin brt ssi ct (fun _ => false) files
      = (files.map (fun f =>
          (f, joinPath [bp, joinPath (f.relDir ++ [f.name]),
            (splitext f.name).1 ++ "_" ++ strftimeCompact ct ++ (splitext f.name).2])), none) := by
  induction files with
  | nil => rfl
  | cons f rest ih =>
    have hd : f.mtime.toSeconds > pyDatetimeMin.toSeconds ∨ pyDatetimeMin = pyDatetimeMin :=
      Or.inr rfl
    simp [create_backup, hd, ih, backup_file_path, rel_path]

/-- Claim C7, counterexample.  The claim says a single file's copy failure
is caught and the copier continues with the next file.  With two first-run
files where copying `f1.txt` raises, the code copies nothing and the
exception escapes (`([], some "source_path/f1.txt")`), even though
`f2.txt` on its own would have been copied. -/
theorem c7_counterexample :
    create_backup "source_path" "backup_path" pyDatetimeMin ⟨0⟩ ⟨0⟩ ⟨2024, 1, 2, 12, 0, 0⟩
        (fun p => p == "source_path/f1.txt")
        [⟨[], "f1.txt", ⟨2024, 1, 1, 0, 0, 0⟩, []⟩, ⟨[], "f2.txt", ⟨2024, 1, 1, 0, 0, 0⟩, []⟩]
      = ([], some "source_path/f1.txt")
    ∧ create_backup "source_path" "backup_path" pyDatetimeMin ⟨0⟩ ⟨0⟩ ⟨2024, 1, 2, 12, 0, 0⟩
        (fun _ => false) [⟨[], "f2.txt", ⟨2024, 1, 1, 0, 0, 0⟩, []⟩]
      = ([(⟨[], "f2.txt", ⟨2024, 1, 1, 0, 0, 0⟩, []⟩,
            "backup_path/f2.txt/f2_20240102120000.txt")], none) :=
  ⟨by decide, by decide⟩

/-- Claim C7, amended: `create_backup` has no per-file exception handler:
the first raising copy aborts the walk — the files before it stay copied,
the raised path propagates, and the files after it are never examined. -/
theorem c7_amended_copy_failure_aborts (sp bp : String) (lbt : PyDateTime)
    (brt ssi : Timedelta) (ct : PyDateTime) (orc : String → Bool)
    (pre : List SourceFile) (f : SourceFile) (post : List SourceFile)
    (hpre : ∀ g ∈ pre, (g.mtime.toSeconds > lbt.toSeconds ∨ lbt = pyDatetimeMin) →
        orc (file_path sp g) = false)
    (hf : f.mtime.toSeconds > lbt.toSeconds ∨ lbt = pyDatetimeMin)
    (horc : orc (file_path sp f) = true) :
    create_backup sp bp lbt brt ssi ct orc (pre ++ f :: post)
      = ((create_backup sp bp lbt brt ssi ct orc pre).1, some (file_path sp f)) := by
  induction pre with
  | nil => simp [create_backup, hf, horc]
  | cons g pre ih =>
    have ihp := ih (fun g2 h2 => hpre g2 (List.mem_cons_of_mem g h2))
    by_cases hdg : g.mtime.toSeconds > lbt.toSeconds ∨ lbt = pyDatetimeMin
    · have ho := hpre g (List.mem_cons_self g pre) hdg
      simp [create_backup, hdg, ho, ihp]
    · simp [create_backup, hdg, ihp]

/-- Witness for `c7_amended_copy_failure_aborts`: the two-file first-run
scenario of the counterexample, with an empty prefix. -/
theorem c7_amended_witness :
    create_backup "source_path" "backup_path" pyDatetimeMin ⟨0⟩ ⟨0⟩ ⟨2024, 1, 2, 12, 0, 0⟩
        (fun p => p == "source_path/f1.txt")
        ([] ++ ⟨[], "f1.txt", ⟨2024, 1, 1, 0, 0, 0⟩, []⟩
          :: [⟨[], "f2.txt", ⟨2024, 1, 1, 0, 0, 0⟩, []⟩])
      = ((create_backup "source_path" "backup_path" pyDatetimeMin ⟨0⟩ ⟨0⟩
            ⟨2024, 1, 2, 12, 0, 0⟩ (fun p => p == "source_path/f1.txt") []).1,
          some (file_path "source_path" ⟨[], "f1.txt", ⟨2024, 1, 1, 0, 0, 0⟩, []⟩)) :=
  c7_amended_copy_failure_aborts "source_path" "backup_path" pyDatetimeMin ⟨0⟩ ⟨0⟩
    ⟨2024, 1, 2, 12, 0, 0⟩ (fun p => p == "source_path/f1.txt")
    [] ⟨[], "f1.txt", ⟨2024, 1, 1, 0, 0, 0⟩, []⟩ [⟨[], "f2.txt", ⟨2024, 1, 1, 0, 0, 0⟩, []⟩]
    (by intro g hg; cases hg) (Or.inr rfl) (by decide)

/-- Claim C10: the copier's behaviour — which files it copies, the paths it
writes, whether and where it aborts — depends only on each entry's
relative location and modification time, never on file contents: two
source listings agreeing file-by-file on `(relDir, name, mtime)` yield the
same copy decisions and the same outcome. -/
theorem c10_decisions_content_independent (sp bp : String) (lbt : PyDateTime)
    (brt ssi : Timedelta) (ct : PyDateTime) (orc : String → Bool) :
    ∀ files1 files2 : List SourceFile,
      files1.map SourceFile.shape = files2.map SourceFile.shape →
      (create_backup sp bp lbt brt ssi ct orc files1).1.map Prod.snd
          = (create_backup sp bp lbt brt ssi ct orc files2).1.map Prod.snd
      ∧ (create_backup sp bp lbt brt ssi ct orc files1).2
          = (create_backup sp bp lbt brt ssi ct orc files2).2
  | [], [], _ => ⟨rfl, rfl⟩
  | [], f2 :: r2, h => by simp at h
  | f1 :: r1, [], h => by simp at h
  | f1 :: r1, f2 :: r2, h => by
    simp only [List.map_cons, List.cons.injEq] at h
    obtain ⟨hsh, hrest⟩ := h
    obtain ⟨rd1, n1, mt1, co1⟩ := f1
    obtain ⟨rd2, n2, mt2, co2⟩ := f2
    simp only [SourceFile.shape, Prod.mk.injEq] at hsh
    obtain ⟨hrd, hn, hmt⟩ := hsh
    subst hrd; subst hn; subst hmt
    have ih := c10_decisions_content_independent sp bp lbt brt ssi ct orc r1 r2 hrest
    by_cases hd : mt1.toSeconds > lbt.toSeconds ∨ lbt = pyDatetimeMin
    · by_cases hr : orc (joinPath (sp :: (rd1 ++ [n1]))) = true
      · simp [create_backup, hd, file_path, hr]
      · simp [create_backup, hd, file_path, hr, backup_file_path, rel_path, ih.1, ih.2]
    · simp only [create_backup, if_neg hd]
      exact ih

/-- Witness for `c10_decisions_content_independent`: two single-file trees
equal in path and modification time but with different bytes produce the
same copy outcome. -/
theorem c10_decisions_witness :
    (create_backup "source_path" "backup_path" pyDatetimeMin ⟨0⟩ ⟨0⟩ ⟨2024, 1, 2, 12, 0, 0⟩
        (fun _ => false) [⟨[], "a.txt", ⟨2024, 1, 1, 0, 0, 0⟩, [0]⟩]).1.map Prod.snd
      = (create_backup "source_path" "backup_path" pyDatetimeMin ⟨0⟩ ⟨0⟩ ⟨2024, 1, 2, 12, 0, 0⟩
        (fun _ => false) [⟨[], "a.txt", ⟨2024, 1, 1, 0, 0, 0⟩, [1]⟩]).1.map Prod.snd
    ∧ (create_backup "source_path" "backup_path" pyDatetimeMin ⟨0⟩ ⟨0⟩ ⟨2024, 1, 2, 12, 0, 0⟩
        (fun _ => false) [⟨[], "a.txt", ⟨2024, 1, 1, 0, 0, 0⟩, [0]⟩]).2
      = (create_backup "source_path" "backup_path" pyDatetimeMin ⟨0⟩ ⟨0⟩ ⟨2024, 1, 2, 12, 0, 0⟩
        (fun _ => false) [⟨[], "a.txt", ⟨2024, 1, 1, 0, 0, 0⟩, [1]⟩]).2 :=
  c10_decisions_content_independent "source_path" "backup_path" pyDatetimeMin ⟨0⟩ ⟨0⟩
    ⟨2024, 1, 2, 12, 0, 0⟩ (fun _ => false)
    [⟨[], "a.txt", ⟨2024, 1, 1, 0, 0, 0⟩, [0]⟩] [⟨[], "a.txt", ⟨2024, 1, 1, 0, 0, 0⟩, [1]⟩]
    (by decide)

/-- Claim C8, counterexample.  The claim says every string not matching
`^\d+[hd]$` fails to parse.  But `int(timeframe[:-1])` accepts signed
integers: `"-5h"` does not match the pattern, yet `parse_timeframe`
returns `timedelta(hours=-5)`, i.e. -18000 seconds. -/
theorem c8_counterexample :
    spec_durationPattern "-5h" = false
    ∧ parse_timeframe "-5h" = Except.ok ⟨-18000⟩ :=
  ⟨by decide, by rfl⟩

/-- Claim C8, amended: every string matching `^\d+[hd]$` parses to the
written magnitude and unit; a string whose leading substring (all but the
final character) is rejected by Python's `int` conversion — which also
accepts signed, whitespace-padded and underscore-separated integers, so
e.g. `"-5h"` succeeds — fails with the magnitude error; a string whose
leading substring converts but whose final character is neither `h` nor
`d` fails with the unit error. -/
theorem c8_amended_parse :
    (∀ s : String, spec_durationPattern s = true →
        parse_timeframe s
          = Except.ok (if s.toList.getLast? = some 'h'
              then timedeltaHours (Int.ofNat (digitsVal s.toList.dropLast))
              else timedeltaDays (Int.ofNat (digitsVal s.toList.dropLast))))
    ∧ (∀ s : String, pyInt? (String.mk s.toList.dropLast) = none →
        parse_timeframe s = Except.error TFError.invalidMagnitude)
    ∧ (∀ (s : String) (n : Int), pyInt? (String.mk s.toList.dropLast) = some n →
        s.toList.getLast? ≠ some 'h' → s.toList.getLast? ≠ some 'd' →
        parse_timeframe s = Except.error TFError.invalidUnit) := by
  refine ⟨?_, ?_, ?_⟩
  · intro s hs
    simp only [spec_durationPattern, Bool.and_eq_true, Bool.or_eq_true, Bool.not_eq_true',
      beq_iff_eq] at hs
    obtain ⟨⟨hne, hdig⟩, hlast⟩ := hs
    have hne2 : s.toList.dropLast ≠ [] := by
      intro h; rw [h] at hne; simp at hne
    have hdig2 : ∀ c ∈ s.toList.dropLast, c.isDigit = true := List.all_eq_true.mp hdig
    unfold parse_timeframe
    rw [pyInt?_of_digits _ hne2 hdig2]
    cases hlast with
    | inl hl => rw [hl]; simp
    | inr hl =>
      have hda : ¬(some 'd' = some 'h') := by decide
      have hl2 : s.data.getLast? = some 'd' := hl
      simp [hl, hl2, hda]
  · intro s h
    unfold parse_timeframe
    rw [h]
  · intro s n h hh hd
    unfold parse_timeframe
    rw [h]
    simp only [if_neg hh, if_neg hd]

/-- Witness for `c8_amended_parse`: `"7h"` parses to 7 hours, `"ah"` fails
with the magnitude error, `"5x"` fails with the unit error. -/
theorem c8_amended_parse_witness :
    parse_timeframe "7h" = Except.ok ⟨25200⟩
    ∧ parse_timeframe "ah" = Except.error TFError.invalidMagnitude
    ∧ parse_timeframe "5x" = Except.error TFError.invalidUnit :=
  ⟨(c8_amended_parse.1 "7h" (by decide)).trans (by rfl),
    c8_amended_parse.2.1 "ah" (by rfl),
    c8_amended_parse.2.2 "5x" 5 (by rfl) (by decide) (by decide)⟩

/-- Claim C1: `perform_backup` never invokes `remove_old_backups` — the
call is simply absent from the function, although the script's own header
documents `backup_retention_time` as "the amount of time to retain each
backup" and both retention settings are parsed and passed around.  First
part: in every run, whatever the configuration, filesystem state, clock
readings and copy outcomes, the backup directory's listing only ever grows
(no entry is ever removed).  Second part, evaluating the run the claim
describes: with retention `7d`, an expired entry `old_19000101000000`
(124 years older than the `now - retention_window` cutoff) is still listed
after the run completes and persists its watermark. -/
theorem c1_pruner_never_invoked :
    (∀ (config : Config) (w : World) (t1 t2 : PyDateTime) (orc : String → Bool),
      ∃ tl, (perform_backup config w t1 t2 orc).1.backupNames = w.backupNames ++ tl)
    ∧ "old_19000101000000" ∈ (perform_backup ⟨"source_path", "backup_path", "7d", "0d", none⟩
        ⟨[⟨[], "a.txt", ⟨2024, 1, 1, 0, 0, 0⟩, []⟩], [], ["old_19000101000000"], true⟩
        ⟨2024, 1, 2, 12, 0, 0⟩ ⟨2024, 1, 2, 12, 0, 0⟩ (fun _ => false)).1.backupNames
    ∧ extractTs "old_19000101000000" = Except.ok ⟨1900, 1, 1, 0, 0, 0⟩
    ∧ ((⟨1900, 1, 1, 0, 0, 0⟩ : PyDateTime).toSeconds : Int)
        < ((⟨2024, 1, 2, 12, 0, 0⟩ : PyDateTime).toSeconds : Int) - (timedeltaDays 7).seconds := by
  refine ⟨?_, by decide, by rfl, by decide⟩
  intro config w t1 t2 orc
  simp only [perform_backup]
  repeat' split
  all_goals try exact ⟨[], (List.append_nil _).symm⟩
  all_goals exact foldl_addUnique_app _ w.backupNames

/-- Claim C9, counterexample.  The claim says the persisted watermark is
the run's `now` captured once at the start of the copy phase, the instant
embedded in every filename, not re-read at persist time.  With the two
`datetime.now()` readings 12:00:00 (copy phase) and 12:00:05 (persist) the
code records `"2024-01-02 12:00:05"` while the filename embeds `12:00:00`:
the value is re-read at line 173. -/
theorem c9_counterexample :
    (perform_backup ⟨"source_path", "backup_path", "7d", "0d", none⟩
        ⟨[⟨[], "a.txt", ⟨2024, 1, 1, 0, 0, 0⟩, []⟩], [], [], true⟩
        ⟨2024, 1, 2, 12, 0, 0⟩ ⟨2024, 1, 2, 12, 0, 5⟩ (fun _ => false)).2
      = Except.ok ⟨"source_path", "backup_path", "7d", "0d", some "2024-01-02 12:00:05"⟩
    ∧ (perform_backup ⟨"source_path", "backup_path", "7d", "0d", none⟩
        ⟨[⟨[], "a.txt", ⟨2024, 1, 1, 0, 0, 0⟩, []⟩], [], [], true⟩
        ⟨2024, 1, 2, 12, 0, 0⟩ ⟨2024, 1, 2, 12, 0, 5⟩ (fun _ => false)).1.destFiles
      = ["backup_path/a.txt/a_20240102120000.txt"]
    ∧ strftimeDash ⟨2024, 1, 2, 12, 0, 0⟩ ≠ "2024-01-02 12:00:05" :=
  ⟨by rfl, by decide, by decide⟩

/-- Claim C9, amended: the watermark a successful run persists is a FRESH
`datetime.now()` reading taken at persist time (`t_persist`), not the
copy-phase reading; the copy-phase reading `t_copy` is what every filename
created by the run embeds.  The two coincide only when the clock did not
advance between the two calls. -/
theorem c9_watermark_fresh_reading (config : Config) (w : World) (t1 t2 : PyDateTime)
    (orc : String → Bool) (config2 : Config)
    (hok : (perform_backup config w t1 t2 orc).2 = Except.ok config2) :
    config2.last_backup_time = some (strftimeDash t2)
    ∧ ∀ p ∈ (perform_backup config w t1 t2 orc).1.destFiles,
        p ∈ w.destFiles ∨ ∃ f : SourceFile, p = backup_file_path config.backup_path t1 f := by
  revert hok
  simp only [perform_backup]
  repeat' split
  all_goals intro hok
  all_goals try exact Except.noConfusion hok
  injection hok with hok2
  rw [← hok2]
  refine ⟨by simp, ?_⟩
  intro p hp
  simp only [World.destFiles] at hp
  rcases List.mem_append.mp hp with hl | hr
  · exact Or.inl hl
  · obtain ⟨pair, hpair, hsnd⟩ := List.mem_map.mp hr
    exact Or.inr ⟨pair.1, by
      rw [← hsnd, create_backup_mem_snd _ _ _ _ _ _ _ _ pair hpair]⟩

/-- Witness for `c9_watermark_fresh_reading` at the counterexample's run:
the persisted configuration records the persist-time reading. -/
theorem c9_watermark_fresh_reading_witness :
    (⟨"source_path", "backup_path", "7d", "0d",
        some "2024-01-02 12:00:05"⟩ : Config).last_backup_time
      = some (strftimeDash ⟨2024, 1, 2, 12, 0, 5⟩) :=
  (c9_watermark_fresh_reading ⟨"source_path", "backup_path", "7d", "0d", none⟩
    ⟨[⟨[], "a.txt", ⟨2024, 1, 1, 0, 0, 0⟩, []⟩], [], [], true⟩
    ⟨2024, 1, 2, 12, 0, 0⟩ ⟨2024, 1, 2, 12, 0, 5⟩ (fun _ => false)
    ⟨"source_path", "backup_path", "7d", "0d", some "2024-01-02 12:00:05"⟩ (by rfl)).1
